import Mathlib

/-!
Shallow embedding of `src/main.cpp` (an OpenGL "hello triangle" program).

The program's observable behaviour is modelled as a trace of events: every
GLFW / OpenGL / stdio call the source makes is one `Event`.  The outcomes of
the fallible external calls (window creation, GLAD loader, shader compile,
program link) and the per-frame input (escape key, user closing the window)
are supplied by an `Env`.  The render loop is fuelled; `main` returns the
trace produced so far together with `some exitCode` when the process
terminated within the fuel and `none` otherwise.
-/

/-- One observable action of the program: a GLFW call, a GL call, a line
printed to stdout, or a process exit.  Enum-constant arguments are carried
as the strings of the C macro names; buffer sizes are carried as element
counts.  `fileRead`/`fileWrite` are in the vocabulary so that their absence
from every trace is a statable fact; the source never produces them. -/
inductive Event where
  | print (msg : String)
  | glfwInitEv
  | windowHint (key : String) (val : Nat)
  | windowHintProfile (profile : String)
  | createWindow (w h : Int) (title : String)
  | glfwTerminateEv
  | makeContextCurrent
  | gladLoad
  | setFramebufferSizeCallback
  | setViewport (x y w h : Int)
  | polygonMode (face mode : String)
  | genVertexArrays
  | bindVertexArray (id : Nat)
  | genBuffers
  | bindBuffer (target : String) (id : Nat)
  | bufferData (target : String) (count : Nat)
  | createShader (ty : String)
  | shaderSource (id : Nat)
  | compileShader (id : Nat)
  | getShaderiv (id : Nat)
  | getShaderInfoLog (id : Nat)
  | createProgram
  | attachShader (prog sh : Nat)
  | linkProgram (prog : Nat)
  | getProgramiv (prog : Nat)
  | getProgramInfoLog (prog : Nat)
  | vertexAttribPointer (index size : Nat)
  | enableVertexAttribArray (index : Nat)
  | deleteShader (id : Nat)
  | deleteBuffers (id : Nat)
  | deleteVertexArrays (id : Nat)
  | deleteProgram (id : Nat)
  | getKey (key : String)
  | setWindowShouldClose (b : Bool)
  | clearColor
  | clear
  | useProgram (id : Nat)
  | drawElements (mode : String) (count : Nat) (ty : String)
  | swapBuffers
  | pollEvents
  | fileRead (path : String)
  | fileWrite (path : String)
  | exitProc (code : Nat)
  deriving DecidableEq

/-- The abstract steps the spec describes a render-loop iteration by.
`stepOf` projects a trace onto these. -/
inductive Step where
  | input
  | clearFrame
  | bindProgram
  | bindArray (id : Nat)
  | draw
  | swap
  | pollEv
  deriving DecidableEq

/-- Projection of an event onto the spec's render-loop steps.  `clearColor`
is a state setter, not a step of its own, so it projects to `none`. -/
def stepOf : Event → Option Step
  | .getKey _ => some .input
  | .clear => some .clearFrame
  | .useProgram _ => some .bindProgram
  | .bindVertexArray i => some (.bindArray i)
  | .drawElements _ _ _ => some .draw
  | .swapBuffers => some .swap
  | .pollEvents => some .pollEv
  | _ => none

/-- The external world: outcomes of the fallible library calls and the
per-iteration input.  `escPressed n` is whether `glfwGetKey` observes the
escape key down during iteration `n`; `userCloses n` is whether the user
closes the window during iteration `n`'s `glfwPollEvents`.
`fragmentCompileOk` exists in the world but is never read by the program:
the source never checks the fragment shader's compile status. -/
structure Env where
  windowOk : Bool
  gladOk : Bool
  vertexCompileOk : Bool
  fragmentCompileOk : Bool
  linkOk : Bool
  escPressed : Nat → Bool
  userCloses : Nat → Bool

/- Handles returned by glGen*/glCreate*: modelled as fixed distinct
identifiers, in order of creation in the source. -/

/-- Handle of the vertex array object (`VAO` in the source). -/
def VAO : Nat := 1

/-- Handle of the vertex buffer object (`VBO` in the source). -/
def VBO : Nat := 2

/-- Handle of the element buffer object (`EBO` in the source). -/
def EBO : Nat := 3

/-- Handle of the vertex shader object (`vertexShader` in the source). -/
def vertexShader : Nat := 4

/-- Handle of the fragment shader object (`fragmentShader` in the source). -/
def fragmentShader : Nat := 5

/-- Handle of the linked program object (`shaderProgram` in the source). -/
def shaderProgram : Nat := 6

/-- The `vertices` array: 18 floats, 6 vertices of 3 coordinates each
(lines 29-37 of the source).  The float literals are exactly representable,
so rationals embed them faithfully. -/
def vertices : List Rat :=
  [ -1/2,  1/2, 0,
    -1,   -1/2, 0,
     0,   -1/2, 0,
     1/2,  1/2, 0,
     0,   -1/2, 0,
     1,   -1/2, 0 ]

/-- The `indices` array: 6 unsigned integers, two triangles
(lines 43-46 of the source). -/
def indices : List Nat := [0, 1, 2, 3, 4, 5]

/-- `framebuffer_size_callback` (lines 144-147).  The parameters are kept in
the source definition's declared order: `height` first, then `width`; the
body calls `glViewport(0, 0, width, height)`. -/
def framebuffer_size_callback (_window : Unit) (height width : Int) : List Event :=
  [.setViewport 0 0 width height]

/-- The windowing library invokes the installed resize callback with the
framebuffer width first and the height second; `fbWidth` and `fbHeight` are
bound positionally to the callback's parameters. -/
def resizeEvents (fbWidth fbHeight : Int) : List Event :=
  framebuffer_size_callback () fbWidth fbHeight

/-- `processInput` (lines 149-156): reads the escape key; if pressed, sets
the window's should-close flag.  Returns the events and whether the flag
was set. -/
def processInput (env : Env) (n : Nat) : List Event × Bool :=
  if env.escPressed n then
    ([.getKey "GLFW_KEY_ESCAPE", .setWindowShouldClose true], true)
  else
    ([.getKey "GLFW_KEY_ESCAPE"], false)

/-- `initWindow` (lines 158-186): glfwInit, three window hints, create the
window (failure: print, glfwTerminate, exit(0)), make the context current,
load GLAD (failure: print, exit(0)), install the resize callback, set the
viewport, return the window.  `none` means the process exited inside. -/
def initWindow (env : Env) : List Event × Option Unit :=
  let pre : List Event :=
    [ .glfwInitEv,
      .windowHint "GLFW_CONTEXT_VERSION_MAJOR" 3,
      .windowHint "GLFW_CONTEXT_VERSION_MINOR" 3,
      .windowHintProfile "GLFW_OPENGL_CORE_PROFILE",
      .createWindow 800 600 "LearnOpenGL" ]
  if env.windowOk = false then
    (pre ++ [.print "Failed to create window", .glfwTerminateEv, .exitProc 0], none)
  else
    let pre2 := pre ++ [.makeContextCurrent, .gladLoad]
    if env.gladOk = false then
      (pre2 ++ [.print "Failed to initialize GLAD", .exitProc 0], none)
    else
      (pre2 ++ [.setFramebufferSizeCallback, .setViewport 0 0 800 600], some ())

/-- The startup sequence of `main` between `initWindow` and the render loop
(lines 53-110): polygon mode, VAO/VBO/EBO creation and upload, vertex and
fragment shader compilation, program link, attribute pointer, and deletion
of the two shader objects.  Only the vertex shader's compile status and the
program's link status are checked; a failed vertex compile prints a message,
a failed link only retrieves the info log. -/
def setupEvents (env : Env) : List Event :=
  [ .polygonMode "GL_FRONT_AND_BACK" "GL_LINE",
    .genVertexArrays, .bindVertexArray VAO,
    .genBuffers, .bindBuffer "GL_ARRAY_BUFFER" VBO,
    .bufferData "GL_ARRAY_BUFFER" vertices.length,
    .genBuffers, .bindBuffer "GL_ELEMENT_ARRAY_BUFFER" EBO,
    .bufferData "GL_ELEMENT_ARRAY_BUFFER" indices.length,
    .createShader "GL_VERTEX_SHADER",
    .shaderSource vertexShader, .compileShader vertexShader,
    .getShaderiv vertexShader ]
  ++ (if env.vertexCompileOk then []
      else [.getShaderInfoLog vertexShader,
            .print "ERROR::SHADER::VERTEX::COMPILATION_FAILED"])
  ++ [ .createShader "GL_FRAGMENT_SHADER",
       .shaderSource fragmentShader, .compileShader fragmentShader,
       .createProgram,
       .attachShader shaderProgram vertexShader,
       .attachShader shaderProgram fragmentShader,
       .linkProgram shaderProgram,
       .getProgramiv shaderProgram ]
  ++ (if env.linkOk then [] else [.getProgramInfoLog shaderProgram])
  ++ [ .vertexAttribPointer 0 3, .enableVertexAttribArray 0,
       .deleteShader vertexShader, .deleteShader fragmentShader ]

/-- The events of one render-loop iteration (lines 112-136): processInput,
clear colour + clear, bind program and VAO, one indexed draw of 6 indices,
unbind the VAO, swap buffers, poll events. -/
def iterationEvents (env : Env) (n : Nat) : List Event :=
  (processInput env n).fst ++
  [ .clearColor, .clear,
    .useProgram shaderProgram,
    .bindVertexArray VAO,
    .drawElements "GL_TRIANGLES" 6 "GL_UNSIGNED_INT",
    .bindVertexArray 0,
    .swapBuffers, .pollEvents ]

/-- The window's should-close flag at the end of iteration `n` (entered with
the flag unset): set by `processInput` on escape or by the user closing the
window during `glfwPollEvents`. -/
def nextClose (env : Env) (n : Nat) : Bool :=
  env.escPressed n || env.userCloses n

/-- The fuelled render loop, starting at iteration `n` with should-close
flag `close`.  Returns the trace and whether the `while` condition became
false within the fuel (`true` = the loop exited normally). -/
def renderLoop (env : Env) : Nat → Nat → Bool → List Event × Bool
  | 0, _, close => ([], close)
  | fuel + 1, n, close =>
    if close then ([], true)
    else
      let r := renderLoop env fuel (n + 1) (nextClose env n)
      (iterationEvents env n ++ r.fst, r.snd)

/-- The number of iterations the fuelled loop executes. -/
def executedCount (env : Env) : Nat → Nat → Bool → Nat
  | 0, _, _ => 0
  | fuel + 1, n, close =>
    if close then 0
    else executedCount env fuel (n + 1) (nextClose env n) + 1

/-- `mainRun` embeds `main` (lines 48-141): initWindow, the startup sequence, the render
loop, then glfwTerminate and `return 0`.  The second component is
`some code` when the process terminated within the fuel (either by `exit(0)`
inside `initWindow` or by the loop exiting and `main` returning), `none`
when the fuel ran out with the loop still live. -/
def mainRun (env : Env) (fuel : Nat) : List Event × Option Nat :=
  if (initWindow env).snd = none then
    ((initWindow env).fst, some 0)
  else
    let loop := renderLoop env fuel 0 false
    if loop.snd = true then
      ((initWindow env).fst ++ setupEvents env ++ loop.fst ++ [.glfwTerminateEv], some 0)
    else
      ((initWindow env).fst ++ setupEvents env ++ loop.fst, none)

/-- Whether an event is a `glDrawElements` call. -/
def isDraw : Event → Bool
  | .drawElements _ _ _ => true
  | _ => false

/-- Whether an event is a print to stdout. -/
def isPrint : Event → Bool
  | .print _ => true
  | _ => false

/-- Whether an event creates or writes a GPU resource (generation, data
upload, shader/program construction, attribute setup, or deletion). -/
def isResourceWrite : Event → Bool
  | .genVertexArrays => true
  | .genBuffers => true
  | .bufferData _ _ => true
  | .createShader _ => true
  | .shaderSource _ => true
  | .compileShader _ => true
  | .createProgram => true
  | .attachShader _ _ => true
  | .linkProgram _ => true
  | .vertexAttribPointer _ _ => true
  | .enableVertexAttribArray _ => true
  | .deleteShader _ => true
  | .deleteBuffers _ => true
  | .deleteVertexArrays _ => true
  | .deleteProgram _ => true
  | _ => false

/-- Whether an event destroys a buffer, vertex array, or program object. -/
def isDeleteRes : Event → Bool
  | .deleteBuffers _ => true
  | .deleteVertexArrays _ => true
  | .deleteProgram _ => true
  | _ => false

/-- Whether an event is a `glfwCreateWindow` call. -/
def isCreateWindow : Event → Bool
  | .createWindow _ _ _ => true
  | _ => false

/-- Whether an event touches the filesystem. -/
def isFileOp : Event → Bool
  | .fileRead _ => true
  | .fileWrite _ => true
  | _ => false

/- Concrete environments used by witnesses and counterexamples. -/

/-- A world where every external call succeeds and escape is pressed in the
first iteration. -/
def envAllOk : Env :=
  { windowOk := true, gladOk := true, vertexCompileOk := true,
    fragmentCompileOk := true, linkOk := true,
    escPressed := fun _ => true, userCloses := fun _ => false }

/-- A world where only the program link fails; escape is pressed in the
first iteration. -/
def envLinkFail : Env :=
  { windowOk := true, gladOk := true, vertexCompileOk := true,
    fragmentCompileOk := true, linkOk := false,
    escPressed := fun _ => true, userCloses := fun _ => false }

/-- A world where window creation fails. -/
def envWinFail : Env :=
  { windowOk := false, gladOk := true, vertexCompileOk := true,
    fragmentCompileOk := true, linkOk := true,
    escPressed := fun _ => true, userCloses := fun _ => false }

/-- A world where everything succeeds and escape is pressed exactly in
iteration 1. -/
def envEscAt1 : Env :=
  { windowOk := true, gladOk := true, vertexCompileOk := true,
    fragmentCompileOk := true, linkOk := true,
    escPressed := fun k => k == 1, userCloses := fun _ => false }

/-! ## Helper lemmas -/

theorem iterationEvents_esc (env : Env) (n : Nat) (h : env.escPressed n = true) :
    iterationEvents env n =
      [ .getKey "GLFW_KEY_ESCAPE", .setWindowShouldClose true,
        .clearColor, .clear, .useProgram shaderProgram, .bindVertexArray VAO,
        .drawElements "GL_TRIANGLES" 6 "GL_UNSIGNED_INT", .bindVertexArray 0,
        .swapBuffers, .pollEvents ] := by
  simp [iterationEvents, processInput, h]

theorem iterationEvents_noesc (env : Env) (n : Nat) (h : env.escPressed n = false) :
    iterationEvents env n =
      [ .getKey "GLFW_KEY_ESCAPE",
        .clearColor, .clear, .useProgram shaderProgram, .bindVertexArray VAO,
        .drawElements "GL_TRIANGLES" 6 "GL_UNSIGNED_INT", .bindVertexArray 0,
        .swapBuffers, .pollEvents ] := by
  simp [iterationEvents, processInput, h]

theorem renderLoop_zero (env : Env) (n : Nat) (c : Bool) :
    renderLoop env 0 n c = ([], c) := rfl

theorem renderLoop_succ_true (env : Env) (f n : Nat) :
    renderLoop env (f + 1) n true = ([], true) := rfl

theorem renderLoop_succ_false (env : Env) (f n : Nat) :
    renderLoop env (f + 1) n false =
      (iterationEvents env n ++ (renderLoop env f (n + 1) (nextClose env n)).fst,
       (renderLoop env f (n + 1) (nextClose env n)).snd) := rfl

theorem executedCount_zero (env : Env) (n : Nat) (c : Bool) :
    executedCount env 0 n c = 0 := rfl

theorem executedCount_succ_true (env : Env) (f n : Nat) :
    executedCount env (f + 1) n true = 0 := rfl

theorem executedCount_succ_false (env : Env) (f n : Nat) :
    executedCount env (f + 1) n false =
      executedCount env f (n + 1) (nextClose env n) + 1 := rfl

theorem renderLoop_all (env : Env) (p : Event → Bool)
    (hp : ∀ n, (iterationEvents env n).all p = true) :
    ∀ fuel n c, ((renderLoop env fuel n c).fst.all p) = true := by
  intro fuel
  induction fuel with
  | zero => intro n c; rw [renderLoop_zero]; rfl
  | succ f ih =>
    intro n c
    cases c with
    | false =>
      rw [renderLoop_succ_false]
      simp only [List.all_append, hp, ih, Bool.and_self]
    | true => rw [renderLoop_succ_true]; rfl

theorem executedCount_closed (env : Env) (fuel n : Nat) :
    executedCount env fuel n true = 0 := by
  cases fuel
  · rw [executedCount_zero]
  · rw [executedCount_succ_true]

theorem renderLoop_count_swap (env : Env) :
    ∀ fuel n c, (renderLoop env fuel n c).fst.count Event.swapBuffers =
      executedCount env fuel n c := by
  intro fuel
  induction fuel with
  | zero => intro n c; rw [renderLoop_zero, executedCount_zero]; rfl
  | succ f ih =>
    intro n c
    cases c with
    | false =>
      have h1 : (iterationEvents env n).count Event.swapBuffers = 1 := by
        cases h : env.escPressed n
        · rw [iterationEvents_noesc env n h]; decide
        · rw [iterationEvents_esc env n h]; decide
      rw [renderLoop_succ_false, executedCount_succ_false]
      simp only [List.count_append, h1, ih]
      omega
    | true => rw [renderLoop_succ_true, executedCount_succ_true]; rfl

theorem executedCount_le_of_close (env : Env) (m : Nat)
    (hm : nextClose env m = true) :
    ∀ fuel n c, n ≤ m → executedCount env fuel n c ≤ m + 1 - n := by
  intro fuel
  induction fuel with
  | zero => intro n c _; rw [executedCount_zero]; omega
  | succ f ih =>
    intro n c hn
    cases c with
    | true => rw [executedCount_succ_true]; omega
    | false =>
      rw [executedCount_succ_false]
      rcases Nat.lt_or_ge n m with hlt | hge
      · have h1 := ih (n + 1) (nextClose env n) hlt
        omega
      · have heq : n = m := Nat.le_antisymm hn hge
        subst heq
        rw [hm, executedCount_closed]
        omega

theorem executedCount_ge (env : Env) :
    ∀ fuel n m, (∀ k, k < m → nextClose env (n + k) = false) → m ≤ fuel →
      m ≤ executedCount env fuel n false := by
  intro fuel
  induction fuel with
  | zero =>
    intro n m _ hm
    rw [executedCount_zero]
    omega
  | succ f ih =>
    intro n m hclose hm
    cases m with
    | zero => omega
    | succ m' =>
      have h0 : nextClose env n = false := by
        have h := hclose 0 (Nat.succ_pos m')
        rwa [Nat.add_zero] at h
      have hrec : m' ≤ executedCount env f (n + 1) false := by
        apply ih (n + 1) m'
        · intro k hk
          have h := hclose (k + 1) (by omega)
          rwa [show n + (k + 1) = n + 1 + k by omega] at h
        · omega
      rw [executedCount_succ_false, h0]
      omega


theorem mainRun_cases (env : Env) (fuel : Nat) :
    (mainRun env fuel).snd = some 0 ∨ (mainRun env fuel).snd = none := by
  by_cases h1 : (initWindow env).snd = none
  · left; simp [mainRun, h1]
  · by_cases h2 : (renderLoop env fuel 0 false).snd = true
    · left; simp [mainRun, h1, h2]
    · right; simp [mainRun, h1, h2]

/-! ## Claim theorems -/

/-- Claim C2: every render-loop iteration performs, in order, input
processing, a framebuffer clear, a bind of the shader program, a bind of the
vertex array, exactly one indexed draw call, and a buffer swap; this step
sequence is the same on every iteration (for every environment and every
iteration index the projected step list is one fixed list). -/
theorem C2_iteration_steps (env : Env) (n : Nat) :
    (iterationEvents env n).filterMap stepOf =
      [Step.input, Step.clearFrame, Step.bindProgram, Step.bindArray VAO,
       Step.draw, Step.bindArray 0, Step.swap, Step.pollEv] ∧
    ((iterationEvents env n).filter isDraw).length = 1 ∧
    List.Sublist
      [Step.input, Step.clearFrame, Step.bindProgram, Step.bindArray VAO,
       Step.draw, Step.swap]
      ((iterationEvents env n).filterMap stepOf) := by
  cases h : env.escPressed n
  · rw [iterationEvents_noesc env n h]; decide
  · rw [iterationEvents_esc env n h]; decide

/-- Claim C4 (refuting evaluation): when the windowing library invokes the
resize callback with framebuffer width 800 and height 600, the callback sets
the viewport to (600, 800) — the dimensions swapped — not to (800, 600) as
the claim states: the callback definition binds the incoming width to a
parameter named `height` and vice versa, contradicting its own forward
declaration. -/
theorem C4_resize_swaps_dimensions :
    resizeEvents 800 600 = [Event.setViewport 0 0 600 800] ∧
    resizeEvents 800 600 ≠ [Event.setViewport 0 0 800 600] := by decide

/-- Claim C5: the geometry uploaded at startup is exactly 18 floats forming
6 vertices of 3 coordinates, and 6 indices in range 0..5 describing two
triangles of three indices each; one buffer-data upload of each of the two
arrays occurs during setup. -/
theorem C5_geometry (env : Env) :
    vertices.length = 18 ∧ vertices.length = 6 * 3 ∧
    indices.length = 6 ∧ (∀ i ∈ indices, i < 6) ∧
    indices = [0, 1, 2] ++ [3, 4, 5] ∧
    (setupEvents env).count (Event.bufferData "GL_ARRAY_BUFFER" vertices.length) = 1 ∧
    (setupEvents env).count (Event.bufferData "GL_ELEMENT_ARRAY_BUFFER" indices.length) = 1 := by
  cases hv : env.vertexCompileOk <;> cases hl : env.linkOk <;>
    simp only [setupEvents, hv, hl] <;> decide

/-- Claim C10: on every terminating path — normal shutdown, window-creation
failure, GLAD failure — the process exit status is 0; in particular each
failure path terminates with status 0 rather than a nonzero code. -/
theorem C10_exit_status_zero (env : Env) (fuel : Nat) :
    (∀ c, (mainRun env fuel).snd = some c → c = 0) ∧
    ((env.windowOk = false ∨ env.gladOk = false) → (mainRun env fuel).snd = some 0) := by
  constructor
  · intro c hc
    rcases mainRun_cases env fuel with h | h
    · rw [h] at hc; exact (Option.some.inj hc).symm
    · rw [h] at hc; cases hc
  · intro hfail
    have hs : (initWindow env).snd = none := by
      rcases hfail with h | h
      · simp [initWindow, h]
      · cases hw : env.windowOk
        · simp [initWindow, hw]
        · simp [initWindow, hw, h]
    simp [mainRun, hs]

/-- Witness for C10: at the world where window creation fails, the run
terminates with exit status 0. -/
theorem C10_exit_status_zero_witness :
    (0 : Nat) = 0 ∧ (mainRun envWinFail 1).snd = some 0 :=
  ⟨(C10_exit_status_zero envWinFail 1).1 0 (by decide),
   (C10_exit_status_zero envWinFail 1).2 (Or.inl rfl)⟩

theorem initWindow_winFail (env : Env) (hw : env.windowOk = false) :
    initWindow env =
      ([ .glfwInitEv,
         .windowHint "GLFW_CONTEXT_VERSION_MAJOR" 3,
         .windowHint "GLFW_CONTEXT_VERSION_MINOR" 3,
         .windowHintProfile "GLFW_OPENGL_CORE_PROFILE",
         .createWindow 800 600 "LearnOpenGL",
         .print "Failed to create window", .glfwTerminateEv, .exitProc 0 ],
       none) := by
  simp [initWindow, hw]

theorem initWindow_gladFail (env : Env) (hw : env.windowOk = true)
    (hg : env.gladOk = false) :
    initWindow env =
      ([ .glfwInitEv,
         .windowHint "GLFW_CONTEXT_VERSION_MAJOR" 3,
         .windowHint "GLFW_CONTEXT_VERSION_MINOR" 3,
         .windowHintProfile "GLFW_OPENGL_CORE_PROFILE",
         .createWindow 800 600 "LearnOpenGL",
         .makeContextCurrent, .gladLoad,
         .print "Failed to initialize GLAD", .exitProc 0 ],
       none) := by
  simp [initWindow, hw, hg]

theorem initWindow_ok (env : Env) (hw : env.windowOk = true)
    (hg : env.gladOk = true) :
    initWindow env =
      ([ .glfwInitEv,
         .windowHint "GLFW_CONTEXT_VERSION_MAJOR" 3,
         .windowHint "GLFW_CONTEXT_VERSION_MINOR" 3,
         .windowHintProfile "GLFW_OPENGL_CORE_PROFILE",
         .createWindow 800 600 "LearnOpenGL",
         .makeContextCurrent, .gladLoad,
         .setFramebufferSizeCallback, .setViewport 0 0 800 600 ],
       some ()) := by
  simp [initWindow, hw, hg]

/-- Claim C3: the loop repeats until close or escape.  If escape is observed
during iteration `n`'s input processing, the should-close flag is set by the
end of iteration `n` and iteration `n + 1` is never executed (at most `n + 1`
frames are swapped); conversely while no close signal has occurred the loop
keeps executing iterations (at least `n` frames given fuel `n`). -/
theorem C3_escape_exits_loop (env : Env) (fuel n : Nat) :
    (env.escPressed n = true →
      nextClose env n = true ∧
      (renderLoop env fuel 0 false).fst.count Event.swapBuffers ≤ n + 1) ∧
    ((∀ k, k < n → nextClose env k = false) → n ≤ fuel →
      n ≤ (renderLoop env fuel 0 false).fst.count Event.swapBuffers) := by
  constructor
  · intro h
    have hn : nextClose env n = true := by simp [nextClose, h]
    refine ⟨hn, ?_⟩
    rw [renderLoop_count_swap]
    have := executedCount_le_of_close env n hn fuel 0 false (Nat.zero_le n)
    omega
  · intro hnc hle
    rw [renderLoop_count_swap]
    exact executedCount_ge env fuel 0 n
      (by intro k hk; rw [Nat.zero_add]; exact hnc k hk) hle

/-- Witness for C3: escape pressed exactly in iteration 1 closes the loop
after at most 2 frames, and the frame count is at least 1. -/
theorem C3_escape_exits_loop_witness :
    (nextClose envEscAt1 1 = true ∧
     (renderLoop envEscAt1 10 0 false).fst.count Event.swapBuffers ≤ 2) ∧
    1 ≤ (renderLoop envEscAt1 10 0 false).fst.count Event.swapBuffers :=
  ⟨(C3_escape_exits_loop envEscAt1 10 1).1 (by decide),
   (C3_escape_exits_loop envEscAt1 10 1).2
     (by intro k hk; rw [Nat.lt_one_iff.mp hk]; decide) (by decide)⟩

/-- Claim C6: the VAO, the two buffers, and the program are each created
exactly once, during startup; no event of the window initializer, of any
render-loop run, or of the resize callback creates, writes, or deletes a GPU
resource. -/
theorem C6_resources_created_once (env : Env) (fuel : Nat) (w h : Int) :
    (setupEvents env).count Event.genVertexArrays = 1 ∧
    (setupEvents env).count Event.genBuffers = 2 ∧
    (setupEvents env).count Event.createProgram = 1 ∧
    ((initWindow env).fst.all fun e => !(isResourceWrite e)) = true ∧
    ((renderLoop env fuel 0 false).fst.all fun e => !(isResourceWrite e)) = true ∧
    ((framebuffer_size_callback () w h).all fun e => !(isResourceWrite e)) = true := by
  have hsetup : (setupEvents env).count Event.genVertexArrays = 1 ∧
      (setupEvents env).count Event.genBuffers = 2 ∧
      (setupEvents env).count Event.createProgram = 1 := by
    cases hv : env.vertexCompileOk <;> cases hl : env.linkOk <;>
      simp only [setupEvents, hv, hl] <;> decide
  have hloop : ((renderLoop env fuel 0 false).fst.all fun e => !(isResourceWrite e)) = true := by
    apply renderLoop_all
    intro m
    cases h : env.escPressed m
    · rw [iterationEvents_noesc env m h]; decide
    · rw [iterationEvents_esc env m h]; decide
  have hinit : ((initWindow env).fst.all fun e => !(isResourceWrite e)) = true := by
    cases hw : env.windowOk
    · rw [initWindow_winFail env hw]; decide
    · cases hg : env.gladOk
      · rw [initWindow_gladFail env hw hg]; decide
      · rw [initWindow_ok env hw hg]; decide
  exact ⟨hsetup.1, hsetup.2.1, hsetup.2.2, hinit, hloop, rfl⟩

theorem renderLoop_not_mem (env : Env) (a : Event)
    (ha : ∀ m, a ∉ iterationEvents env m) :
    ∀ fuel n c, a ∉ (renderLoop env fuel n c).fst := by
  intro fuel
  induction fuel with
  | zero => intro n c; rw [renderLoop_zero]; simp
  | succ f ih =>
    intro n c
    cases c with
    | false =>
      rw [renderLoop_succ_false]
      intro hmem
      rcases List.mem_append.mp hmem with h | h
      · exact ha n h
      · exact ih (n + 1) (nextClose env n) h
    | true => rw [renderLoop_succ_true]; simp

/-- Claim C8: the window/context initializer returns (a non-null window) iff
window creation and GPU loader initialization both succeed, and on success
its event sequence is exactly: GLFW init, three hints, window creation,
making the context current, loading GLAD, installing the resize callback,
and setting the viewport. -/
theorem C8_initWindow_contract (env : Env) :
    ((initWindow env).snd = some () ↔ (env.windowOk = true ∧ env.gladOk = true)) ∧
    (env.windowOk = true → env.gladOk = true →
      (initWindow env).fst =
        [ .glfwInitEv,
          .windowHint "GLFW_CONTEXT_VERSION_MAJOR" 3,
          .windowHint "GLFW_CONTEXT_VERSION_MINOR" 3,
          .windowHintProfile "GLFW_OPENGL_CORE_PROFILE",
          .createWindow 800 600 "LearnOpenGL",
          .makeContextCurrent, .gladLoad,
          .setFramebufferSizeCallback, .setViewport 0 0 800 600 ]) := by
  constructor
  · constructor
    · intro h
      cases hw : env.windowOk
      · rw [initWindow_winFail env hw] at h; simp at h
      · cases hg : env.gladOk
        · rw [initWindow_gladFail env hw hg] at h; simp at h
        · exact ⟨rfl, rfl⟩
    · rintro ⟨hw, hg⟩
      rw [initWindow_ok env hw hg]
  · intro hw hg
    rw [initWindow_ok env hw hg]

/-- Witness for C8: in the all-success world the initializer returns and
produces exactly the claimed event sequence. -/
theorem C8_initWindow_contract_witness :
    (initWindow envAllOk).fst =
      [ .glfwInitEv,
        .windowHint "GLFW_CONTEXT_VERSION_MAJOR" 3,
        .windowHint "GLFW_CONTEXT_VERSION_MINOR" 3,
        .windowHintProfile "GLFW_OPENGL_CORE_PROFILE",
        .createWindow 800 600 "LearnOpenGL",
        .makeContextCurrent, .gladLoad,
        .setFramebufferSizeCallback, .setViewport 0 0 800 600 ] :=
  (C8_initWindow_contract envAllOk).2 rfl rfl

/-- Claim C7: on a normal shutdown (both initializations succeed and the
loop exits), the exit status is 0, no deletion of a buffer, vertex array, or
program ever occurs in the trace, the trace ends with the GLFW termination
call, and that termination call occurs exactly once. -/
theorem C7_no_resource_teardown (env : Env) (fuel : Nat)
    (hw : env.windowOk = true) (hg : env.gladOk = true)
    (hfin : (renderLoop env fuel 0 false).snd = true) :
    (mainRun env fuel).snd = some 0 ∧
    ((mainRun env fuel).fst.all fun e => !(isDeleteRes e)) = true ∧
    List.IsSuffix [Event.glfwTerminateEv] (mainRun env fuel).fst ∧
    (mainRun env fuel).fst.count Event.glfwTerminateEv = 1 := by
  have hsn : ¬((initWindow env).snd = none) := by
    rw [initWindow_ok env hw hg]; simp
  have hmain : mainRun env fuel =
      ((initWindow env).fst ++ setupEvents env ++
        (renderLoop env fuel 0 false).fst ++ [.glfwTerminateEv], some 0) := by
    simp [mainRun, hsn, hfin]
  have hinit : ((initWindow env).fst.all fun e => !(isDeleteRes e)) = true := by
    rw [initWindow_ok env hw hg]; decide
  have hsetup : ((setupEvents env).all fun e => !(isDeleteRes e)) = true := by
    cases hv : env.vertexCompileOk <;> cases hl : env.linkOk <;>
      simp only [setupEvents, hv, hl] <;> decide
  have hloop : ((renderLoop env fuel 0 false).fst.all fun e => !(isDeleteRes e)) = true := by
    apply renderLoop_all
    intro m
    cases h : env.escPressed m
    · rw [iterationEvents_noesc env m h]; decide
    · rw [iterationEvents_esc env m h]; decide
  have hterm : Event.glfwTerminateEv ∉ (renderLoop env fuel 0 false).fst := by
    apply renderLoop_not_mem
    intro m
    cases h : env.escPressed m
    · rw [iterationEvents_noesc env m h]; decide
    · rw [iterationEvents_esc env m h]; decide
  refine ⟨by rw [hmain], ?_, ?_, ?_⟩
  · rw [hmain]
    simp only [List.all_append, hinit, hsetup, hloop]
    decide
  · rw [hmain]
    exact List.suffix_append _ _
  · rw [hmain]
    simp only [List.count_append]
    have h1 : (initWindow env).fst.count Event.glfwTerminateEv = 0 := by
      rw [initWindow_ok env hw hg]; decide
    have h2 : (setupEvents env).count Event.glfwTerminateEv = 0 := by
      cases hv : env.vertexCompileOk <;> cases hl : env.linkOk <;>
        simp only [setupEvents, hv, hl] <;> decide
    have h3 : (renderLoop env fuel 0 false).fst.count Event.glfwTerminateEv = 0 :=
      List.count_eq_zero.mpr hterm
    rw [h1, h2, h3]
    decide

/-- Witness for C7: in the all-success world with fuel 2, the loop exits
after the first iteration and the conclusions hold. -/
theorem C7_no_resource_teardown_witness :
    (mainRun envAllOk 2).snd = some 0 ∧
    ((mainRun envAllOk 2).fst.all fun e => !(isDeleteRes e)) = true ∧
    List.IsSuffix [Event.glfwTerminateEv] (mainRun envAllOk 2).fst ∧
    (mainRun envAllOk 2).fst.count Event.glfwTerminateEv = 1 :=
  C7_no_resource_teardown envAllOk 2 rfl rfl (by decide)

theorem iteration_hasDraw (env : Env) (m : Nat) :
    (iterationEvents env m).any isDraw = true := by
  cases h : env.escPressed m
  · rw [iterationEvents_noesc env m h]; decide
  · rw [iterationEvents_esc env m h]; decide

theorem loop_hasDraw (env : Env) (f : Nat) :
    (renderLoop env (f + 1) 0 false).fst.any isDraw = true := by
  rw [renderLoop_succ_false]
  simp only [List.any_append, iteration_hasDraw, Bool.true_or]

theorem iteration_not_exit (env : Env) (m : Nat) :
    Event.exitProc 0 ∉ iterationEvents env m := by
  cases h : env.escPressed m
  · rw [iterationEvents_noesc env m h]; decide
  · rw [iterationEvents_esc env m h]; decide

theorem iteration_no_createWindow (env : Env) (m : Nat) :
    (iterationEvents env m).all (fun e => !(isCreateWindow e)) = true := by
  cases h : env.escPressed m
  · rw [iterationEvents_noesc env m h]; decide
  · rw [iterationEvents_esc env m h]; decide

theorem iteration_no_fileOp (env : Env) (m : Nat) :
    (iterationEvents env m).all (fun e => !(isFileOp e)) = true := by
  cases h : env.escPressed m
  · rw [iterationEvents_noesc env m h]; decide
  · rw [iterationEvents_esc env m h]; decide

theorem loop_filter_createWindow (env : Env) (fuel : Nat) :
    (renderLoop env fuel 0 false).fst.filter isCreateWindow = [] := by
  apply List.filter_eq_nil_iff.mpr
  intro a ha hc
  have hall := renderLoop_all env (fun e => !(isCreateWindow e))
    (iteration_no_createWindow env) fuel 0 false
  have h := List.all_eq_true.mp hall a ha
  rw [hc] at h
  cases h

theorem loop_no_fileOp (env : Env) (fuel : Nat) :
    (renderLoop env fuel 0 false).fst.all (fun e => !(isFileOp e)) = true :=
  renderLoop_all env _ (iteration_no_fileOp env) fuel 0 false

theorem setup_filter_createWindow (env : Env) :
    (setupEvents env).filter isCreateWindow = [] := by
  cases hv : env.vertexCompileOk <;> cases hl : env.linkOk <;>
    simp only [setupEvents, hv, hl] <;> decide

theorem setup_no_fileOp (env : Env) :
    (setupEvents env).all (fun e => !(isFileOp e)) = true := by
  cases hv : env.vertexCompileOk <;> cases hl : env.linkOk <;>
    simp only [setupEvents, hv, hl] <;> decide

/-- Claim C9: the program's external interface is one window created at the
constant size 800×600 with the static title "LearnOpenGL" — on every run,
whatever the environment, exactly one window-creation call occurs and it
carries those constants — and no event of any run reads or writes a file. -/
theorem C9_external_interface (env : Env) (fuel : Nat) :
    (mainRun env fuel).fst.filter isCreateWindow =
      [Event.createWindow 800 600 "LearnOpenGL"] ∧
    ((mainRun env fuel).fst.all fun e => !(isFileOp e)) = true := by
  by_cases h1 : (initWindow env).snd = none
  · have hmain : mainRun env fuel = ((initWindow env).fst, some 0) := by
      simp [mainRun, h1]
    rw [hmain]
    cases hw : env.windowOk
    · rw [initWindow_winFail env hw]; exact ⟨by decide, by decide⟩
    · cases hg : env.gladOk
      · rw [initWindow_gladFail env hw hg]; exact ⟨by decide, by decide⟩
      · rw [initWindow_ok env hw hg] at h1; simp at h1
  · have hok : env.windowOk = true ∧ env.gladOk = true := by
      cases hw : env.windowOk
      · exact absurd (by rw [initWindow_winFail env hw]) h1
      · cases hg : env.gladOk
        · exact absurd (by rw [initWindow_gladFail env hw hg]) h1
        · exact ⟨rfl, rfl⟩
    have hinitF : (initWindow env).fst.filter isCreateWindow =
        [Event.createWindow 800 600 "LearnOpenGL"] := by
      rw [initWindow_ok env hok.1 hok.2]; decide
    have hinitA : ((initWindow env).fst.all fun e => !(isFileOp e)) = true := by
      rw [initWindow_ok env hok.1 hok.2]; decide
    by_cases h2 : (renderLoop env fuel 0 false).snd = true
    · have hmain : mainRun env fuel =
          ((initWindow env).fst ++ setupEvents env ++
            (renderLoop env fuel 0 false).fst ++ [.glfwTerminateEv], some 0) := by
        simp [mainRun, h1, h2]
      rw [hmain]
      constructor
      · simp only [List.filter_append, hinitF, setup_filter_createWindow,
          loop_filter_createWindow]
        decide
      · simp only [List.all_append, hinitA, setup_no_fileOp, loop_no_fileOp]
        decide
    · have hmain : mainRun env fuel =
          ((initWindow env).fst ++ setupEvents env ++
            (renderLoop env fuel 0 false).fst, none) := by
        simp [mainRun, h1, h2]
      rw [hmain]
      constructor
      · simp only [List.filter_append, hinitF, setup_filter_createWindow,
          loop_filter_createWindow]
        decide
      · simp only [List.all_append, hinitA, setup_no_fileOp, loop_no_fileOp]
        decide

theorem loop_count_exit (env : Env) (fuel n : Nat) (c : Bool) :
    (renderLoop env fuel n c).fst.count (Event.exitProc 0) = 0 :=
  List.count_eq_zero.mpr (renderLoop_not_mem env _ (iteration_not_exit env) fuel n c)

theorem setup_count_exit (env : Env) :
    (setupEvents env).count (Event.exitProc 0) = 0 := by
  cases hv : env.vertexCompileOk <;> cases hl : env.linkOk <;>
    simp only [setupEvents, hv, hl] <;> decide

/-- Claim C1 counterexample: in the world where only the program link fails
(and the loop then runs one frame and exits), the link failure is reached —
the startup trace fetches the program info log exactly once — yet the whole
run prints nothing at all: the shader/program-compilation failure point is
not "handled by printing a message" when only the link fails. -/
theorem C1_link_failure_prints_nothing :
    envLinkFail.linkOk = false ∧
    (setupEvents envLinkFail).count (Event.getProgramInfoLog shaderProgram) = 1 ∧
    ((mainRun envLinkFail 2).fst.all fun e => !(isPrint e)) = true := by decide

/-- Claim C1 (amended): window-creation failure and GLAD failure each print
their message and terminate the process immediately (status 0, the print
directly before the termination events); a vertex-shader compile failure
prints its error message and execution continues; a program link failure
retrieves the info log but prints nothing (when the vertex compile
succeeded, the setup trace contains no print at all); in both shader cases
execution proceeds into the render loop — the run contains no exit call and
does issue draw calls. -/
theorem C1_error_handling (env : Env) (fuel : Nat) (hf : 1 ≤ fuel) :
    (env.windowOk = false →
      (mainRun env fuel).snd = some 0 ∧
      List.IsSuffix [Event.print "Failed to create window",
        Event.glfwTerminateEv, Event.exitProc 0] (mainRun env fuel).fst) ∧
    (env.windowOk = true → env.gladOk = false →
      (mainRun env fuel).snd = some 0 ∧
      List.IsSuffix [Event.print "Failed to initialize GLAD",
        Event.exitProc 0] (mainRun env fuel).fst) ∧
    (env.windowOk = true → env.gladOk = true →
      (env.vertexCompileOk = false →
        (setupEvents env).count
          (Event.print "ERROR::SHADER::VERTEX::COMPILATION_FAILED") = 1) ∧
      (env.linkOk = false →
        (setupEvents env).count (Event.getProgramInfoLog shaderProgram) = 1) ∧
      (env.vertexCompileOk = true →
        ((setupEvents env).all fun e => !(isPrint e)) = true) ∧
      ((mainRun env fuel).fst.count (Event.exitProc 0) = 0 ∧
       (mainRun env fuel).fst.any isDraw = true)) := by
  refine ⟨?_, ?_, ?_⟩
  · intro hw
    have hfst : (mainRun env fuel).fst =
        [ .glfwInitEv,
          .windowHint "GLFW_CONTEXT_VERSION_MAJOR" 3,
          .windowHint "GLFW_CONTEXT_VERSION_MINOR" 3,
          .windowHintProfile "GLFW_OPENGL_CORE_PROFILE",
          .createWindow 800 600 "LearnOpenGL",
          .print "Failed to create window", .glfwTerminateEv, .exitProc 0 ] := by
      simp [mainRun, initWindow_winFail env hw]
    have hsnd : (mainRun env fuel).snd = some 0 := by
      simp [mainRun, initWindow_winFail env hw]
    exact ⟨hsnd, by rw [hfst]; decide⟩
  · intro hw hg
    have hfst : (mainRun env fuel).fst =
        [ .glfwInitEv,
          .windowHint "GLFW_CONTEXT_VERSION_MAJOR" 3,
          .windowHint "GLFW_CONTEXT_VERSION_MINOR" 3,
          .windowHintProfile "GLFW_OPENGL_CORE_PROFILE",
          .createWindow 800 600 "LearnOpenGL",
          .makeContextCurrent, .gladLoad,
          .print "Failed to initialize GLAD", .exitProc 0 ] := by
      simp [mainRun, initWindow_gladFail env hw hg]
    have hsnd : (mainRun env fuel).snd = some 0 := by
      simp [mainRun, initWindow_gladFail env hw hg]
    exact ⟨hsnd, by rw [hfst]; decide⟩
  · intro hw hg
    have h1 : ¬((initWindow env).snd = none) := by
      rw [initWindow_ok env hw hg]; simp
    refine ⟨?_, ?_, ?_, ?_⟩
    · intro hv
      cases hl : env.linkOk <;> simp only [setupEvents, hv, hl] <;> decide
    · intro hl
      cases hv : env.vertexCompileOk <;> simp only [setupEvents, hv, hl] <;> decide
    · intro hv
      cases hl : env.linkOk <;> simp only [setupEvents, hv, hl] <;> decide
    · obtain ⟨f, hfeq⟩ : ∃ f, fuel = f + 1 := ⟨fuel - 1, by omega⟩
      subst hfeq
      have hcInit : (initWindow env).fst.count (Event.exitProc 0) = 0 := by
        rw [initWindow_ok env hw hg]; decide
      have haInit : (initWindow env).fst.any isDraw = false := by
        rw [initWindow_ok env hw hg]; decide
      have haSetup : (setupEvents env).any isDraw = false := by
        cases hv : env.vertexCompileOk <;> cases hl : env.linkOk <;>
          simp only [setupEvents, hv, hl] <;> decide
      by_cases h2 : (renderLoop env (f + 1) 0 false).snd = true
      · have hmain : mainRun env (f + 1) =
            ((initWindow env).fst ++ setupEvents env ++
              (renderLoop env (f + 1) 0 false).fst ++ [.glfwTerminateEv], some 0) := by
          simp [mainRun, h1, h2]
        rw [hmain]
        constructor
        · simp only [List.count_append, hcInit, setup_count_exit, loop_count_exit]
          decide
        · simp only [List.any_append, haInit, haSetup, loop_hasDraw,
            Bool.or_true, Bool.true_or, Bool.false_or]
      · have hmain : mainRun env (f + 1) =
            ((initWindow env).fst ++ setupEvents env ++
              (renderLoop env (f + 1) 0 false).fst, none) := by
          simp [mainRun, h1, h2]
        rw [hmain]
        constructor
        · simp only [List.count_append, hcInit, setup_count_exit, loop_count_exit]
        · simp only [List.any_append, haInit, haSetup, loop_hasDraw,
            Bool.or_true, Bool.true_or, Bool.false_or]

/-- Witness for C1 (amended) in the link-failure world with fuel 2: the link
failure retrieves the info log once, the setup trace prints nothing, and the
run still issues a draw call. -/
theorem C1_error_handling_witness :
    (setupEvents envLinkFail).count (Event.getProgramInfoLog shaderProgram) = 1 ∧
    ((setupEvents envLinkFail).all fun e => !(isPrint e)) = true ∧
    (mainRun envLinkFail 2).fst.any isDraw = true := by
  have h := (C1_error_handling envLinkFail 2 (by decide)).2.2 rfl rfl
  exact ⟨h.2.1 rfl, h.2.2.1 rfl, h.2.2.2.2⟩
